import Mathlib

set_option maxHeartbeats 1000000
set_option maxRecDepth 4000

/- Shallow embedding of the gadgetron-bart bridge (bartgadget.cpp, bartgadget.h,
   bart_api.h).  C++ strings are modelled as lists of characters, `long` values
   as `Int`, sizes as `Nat`.  The BART engine (`in_mem_bart_main`), the
   in-memory CFL registry lookup (`load_mem_cfl`) and the filesystem are
   modelled as oracles supplied to the embedded functions; the side effects of
   one `process` invocation (registrations, engine invocations, directory
   removal, `deallocate_all_mem_cfl`) are recorded in an event trace. -/

-- ===== basic helpers mirroring C++ string operations =====

/-- C `isspace` (the trim lambdas): space, tab, newline, vertical tab,
form feed, carriage return. -/
def isSpaceC (c : Char) : Bool :=
  c == ' ' || c == '\t' || c == '\n' || c == '\x0b' || c == '\x0c' || c == '\r'

/-- `Line.substr(0, Line.find_first_of("#"))`: keep everything before the
first `#`. -/
def cropComment (l : List Char) : List Char :=
  l.takeWhile (fun c => !(c == '#'))

/-- `internal::trim`: `ltrim` then `rtrim`. -/
def trimC (l : List Char) : List Char :=
  ((l.dropWhile isSpaceC).reverse.dropWhile isSpaceC).reverse

def findFromAux : List Char → Char → Nat → Option Nat
  | [], _, _ => none
  | a :: as, c, idx => if a == c then some idx else findFromAux as c (idx + 1)

/-- `std::string::find(c, pos)`: index of the first occurrence of `c` at or
after `pos`; `none` models `npos`. -/
def findFrom (s : List Char) (c : Char) (pos : Nat) : Option Nat :=
  findFromAux (s.drop pos) c pos

/-- `std::string::substr(pos, len)` (length clamps at the end of the string). -/
def subList (s : List Char) (pos len : Nat) : List Char :=
  (s.drop pos).take len

/-- `std::string::replace(pos, len, repl)` (length clamps at the end). -/
def replaceRange (s : List Char) (pos len : Nat) (repl : List Char) : List Char :=
  s.take pos ++ repl ++ s.drop (pos + len)

/-- `std::to_string` on an unsigned value. -/
def natChars (n : Nat) : List Char := (Nat.repr n).data

/-- `operator<<` / `std::to_string` on a `long`. -/
def intChars (i : Int) : List Char :=
  if i < 0 then '-' :: natChars i.natAbs else natChars i.toNat

/-- `std::vector<long>::operator[]` ; out-of-range access is undefined
behaviour in C++, resolved here (arbitrarily) to 0. -/
def cppIdx (v : List Int) (i : Nat) : Int := v.getD i 0

def tokAux : List Char → List Char → List (List Char)
  | [], cur => if cur.isEmpty then [] else [cur.reverse]
  | c :: cs, cur =>
    if c == ' ' then
      if cur.isEmpty then tokAux cs [] else cur.reverse :: tokAux cs []
    else tokAux cs (c :: cur)

/-- Splitting on single spaces, dropping empty tokens: this is both
`strtok(.., " ")` in `call_BART` and
`boost::tokenizer<boost::char_separator<char>>` with separator `" "` in
`internal::get_output_filename`. -/
def tokenizeWS (l : List Char) : List (List Char) := tokAux l []

-- ===== fixed string constants of the gadget =====

def sBart : List Char := "bart".data
def sMG : List Char := "meas_gadgetron".data
def sMGRef : List Char := "meas_gadgetron_ref".data
def sReshapeSuffix : List Char := "_reshape".data
def sSp : List Char := " ".data

def sReconMatrixX : List Char := "recon_matrix_x".data
def sReconMatrixY : List Char := "recon_matrix_y".data
def sReconMatrixZ : List Char := "recon_matrix_z".data
def sFOVX : List Char := "FOV_x".data
def sFOVY : List Char := "FOV_y".data
def sFOVZ : List Char := "FOV_z".data
def sAccPE1 : List Char := "acc_factor_PE1".data
def sAccPE2 : List Char := "acc_factor_PE2".data
def sRefPE1 : List Char := "reference_lines_PE1".data
def sRefPE2 : List Char := "reference_lines_PE2".data

-- ===== Default_parameters (bartgadget.h) =====

/-- `struct Default_parameters`: the fixed, enumerated configuration set
(all fields are `uint16_t` in the source). -/
structure DefaultParams where
  recon_matrix_x : Nat
  recon_matrix_y : Nat
  recon_matrix_z : Nat
  FOV_x : Nat
  FOV_y : Nat
  FOV_z : Nat
  acc_factor_PE1 : Nat
  acc_factor_PE2 : Nat
  reference_lines_PE1 : Nat
  reference_lines_PE2 : Nat
deriving DecidableEq

/-- The if/else-if chain of `BartGadget::replace_default_parameters`:
value of the named parameter, `none` when the name matches no known
parameter (the `GERROR` branch). -/
def paramValue (dp : DefaultParams) (nm : List Char) : Option Nat :=
  if nm == sReconMatrixX then some dp.recon_matrix_x
  else if nm == sReconMatrixY then some dp.recon_matrix_y
  else if nm == sReconMatrixZ then some dp.recon_matrix_z
  else if nm == sFOVX then some dp.FOV_x
  else if nm == sFOVY then some dp.FOV_y
  else if nm == sFOVZ then some dp.FOV_z
  else if nm == sAccPE1 then some dp.acc_factor_PE1
  else if nm == sAccPE2 then some dp.acc_factor_PE2
  else if nm == sRefPE1 then some dp.reference_lines_PE1
  else if nm == sRefPE2 then some dp.reference_lines_PE2
  else none

/-- The `while ((pos = str.find('$', pos)) != npos)` loop of
`BartGadget::replace_default_parameters`.  The returned Bool records whether
the `GERROR("Unknown default parameter, ...")` branch was taken at least
once.  `pos = pos_end` at the end of each iteration is the position computed
in the string *before* a replacement, exactly as in the source.  The fuel
argument only bounds the number of loop iterations; `pos` strictly increases
and the string never grows, so `s.length + 1` iterations always suffice. -/
def rdpAux (dp : DefaultParams) : Nat → List Char → Nat → List Char × Bool
  | 0, s, _ => (s, false)
  | fuel + 1, s, pos =>
    match findFrom s '$' pos with
    | none => (s, false)
    | some p =>
      let tokLen := match findFrom s ' ' p with
        | some pe => pe - p
        | none => s.length - p
      let tmp := (subList s p tokLen).drop 1
      match paramValue dp tmp with
      | some v =>
        match findFrom s ' ' p with
        | some pe => rdpAux dp fuel (replaceRange s p tokLen (natChars v)) pe
        | none => (replaceRange s p tokLen (natChars v), false)
      | none =>
        match findFrom s ' ' p with
        | some pe => ((rdpAux dp fuel s pe).1, true)
        | none => (s, true)

/-- `BartGadget::replace_default_parameters` (in-place mutation of `str`
modelled as returning the new string, plus the unknown-parameter report
flag). -/
def replace_default_parameters (dp : DefaultParams) (s : List Char) :
    List Char × Bool :=
  rdpAux dp (s.length + 1) s 0

-- ===== call_BART (tokenization + engine invocation) =====

/-- The `strtok` loop of `BartGadget::call_BART`: at most
`MAX_ARGS - 1 = 255` tokens are collected into `argv`; any further tokens
are silently dropped. -/
def argvOf (cmdline : List Char) : List (List Char) :=
  (tokenizeWS cmdline).take 255

/-- `BartGadget::call_BART`: tokenize, call `in_mem_bart_main` (the `engine`
oracle), succeed iff the exit code is zero. -/
def call_BART (engine : List (List Char) → Int) (cmdline : List Char) : Bool :=
  engine (argvOf cmdline) == 0

/-- `internal::get_output_filename`: tokenize the command line and take
`outputFile.back()`.  `none` models the undefined `back()` on an empty
vector. -/
def get_output_filename (cl : List Char) : Option (List Char) :=
  (tokenizeWS cl).getLast?

-- ===== events and configuration of one process() invocation =====

/-- The three registration variants of bart_api.h
(`register_mem_cfl_malloc`, `register_mem_cfl_new`,
`register_mem_cfl_non_managed`). -/
inductive Ownership
  | mallocOwned
  | newOwned
  | nonManaged
deriving DecidableEq

/-- Observable side effects of one `BartGadget::process` invocation. -/
inductive Event
  | register (name : List Char) (d : Nat) (own : Ownership)
  | mount
  | engineInvoke (argv : List (List Char))
  | load (name : List Char)
  | dirRemoved
  | deallocAll
deriving DecidableEq

/-- Return value of `process`: `GADGET_OK`, `GADGET_FAIL`, or undefined
behaviour reached (out-of-bounds `back()`, failed `assert`). -/
inductive PResult
  | ok
  | fail
  | undef
deriving DecidableEq

/-- Gadget properties and environmental outcomes that `process` branches on.
`ubActive` is the indeterminate initial value of the never-initialized
`ScopeGuard::is_active_` member. -/
structure Config where
  scriptExists : Bool
  chmodOk : Bool
  workDirEmpty : Bool
  mkdirOk : Bool
  cacheToVM : Bool
  storeFiles : Bool
  mountOk : Bool
  ubActive : Bool
deriving DecidableEq

/-- `internal::ScopeGuard::~ScopeGuard()`: `if (is_active_) cleanup(p_);`
then `deallocate_all_mem_cfl();`.  Runs whenever the guard's scope is left
by a return. -/
def guardExit (active : Bool) : List Event :=
  (if active then [Event.dirRemoved] else []) ++ [Event.deallocAll]

/-- One element of `m1->getObjectPtr()->rbit_`: the `get_size` accessors of
the reference array and of the data array. -/
structure ReconBit where
  refSize : Nat → Int
  dataSize : Nat → Int

/-- The seven `emplace_back(x.get_size(0)) .. get_size(6)` calls. -/
def emplace7 (f : Nat → Int) : List Int :=
  [f 0, f 1, f 2, f 3, f 4, f 5, f 6]

/-- The `for (auto recon_bit : m1->getObjectPtr()->rbit_)` loop of
`BartGadget::process`.  `DIMS_ref` and `DIMS` are declared outside the loop
and are never cleared, so each iteration appends seven more entries; both
`register_mem_cfl_non_managed` calls pass `DIMS.size()` as the dimension
count.  Returns the emitted registration events and the final accumulated
`DIMS_ref` and `DIMS`. -/
def registerStage : List ReconBit → List Int → List Int →
    List Event × List Int × List Int
  | [], dref, d => ([], dref, d)
  | b :: bs, dref, d =>
    let dref2 := dref ++ emplace7 b.refSize
    let d2 := d ++ emplace7 b.dataSize
    let evs :=
      (if dref2 ≠ d2 then [Event.register sMGRef d2.length Ownership.nonManaged]
       else []) ++ [Event.register sMG d2.length Ownership.nonManaged]
    let rest := registerStage bs dref2 d2
    (evs ++ rest.1, rest.2)

-- ===== the bookkeeping command strings (cmd1, cmd2, cmd3) =====

def sCmd1a : List Char := "bart resize -c 0 ".data
def sCmd1b : List Char := " 1 ".data
def sCmd1c : List Char := " 2 ".data
def sCmd1d : List Char := " meas_gadgetron_ref reference_data".data
def sCmd2a : List Char := "bart reshape 1023 ".data
def sCmd2b : List Char := " 1 1 1 ".data
def sCmd2c : List Char := " meas_gadgetron input_data".data
def sCmd2scale : List Char := "bart scale 1.0 meas_gadgetron input_data".data
def sOne : List Char := " 1 ".data

/-- `cmd1`: `"bart resize -c 0 " << DIMS[0] << " 1 " << DIMS[1] << " 2 "
<< DIMS[2] << " meas_gadgetron_ref reference_data"`. -/
def cmd1Str (d : List Int) : List Char :=
  sCmd1a ++ intChars (cppIdx d 0) ++ sCmd1b ++ intChars (cppIdx d 1) ++
    sCmd1c ++ intChars (cppIdx d 2) ++ sCmd1d

/-- `cmd2`: the `reshape 1023` command when `DIMS[4] != 1`, else
`"bart scale 1.0 meas_gadgetron input_data"`. -/
def cmd2Str (d : List Int) : List Char :=
  if cppIdx d 4 ≠ 1 then
    sCmd2a ++ intChars (cppIdx d 0) ++ sSp ++ intChars (cppIdx d 1) ++ sSp ++
      intChars (cppIdx d 2) ++ sSp ++ intChars (cppIdx d 3) ++ sCmd2b ++
      intChars (cppIdx d 5) ++ sSp ++ intChars (cppIdx d 6) ++ sSp ++
      intChars (cppIdx d 4) ++ sCmd2c
  else sCmd2scale

/-- `cmd3`: `"bart reshape 1023 " << header[0..3] << header[9]*header[4]
<< header[5..8] << " 1 " << outputFile << " " << outputFileReshape`. -/
def cmd3Str (header : List Int) (outFile outR : List Char) : List Char :=
  sCmd2a ++ intChars (cppIdx header 0) ++ sSp ++ intChars (cppIdx header 1) ++
    sSp ++ intChars (cppIdx header 2) ++ sSp ++ intChars (cppIdx header 3) ++
    sSp ++ intChars (cppIdx header 9 * cppIdx header 4) ++ sSp ++
    intChars (cppIdx header 5) ++ sSp ++ intChars (cppIdx header 6) ++ sSp ++
    intChars (cppIdx header 7) ++ sSp ++ intChars (cppIdx header 8) ++ sOne ++
    outFile ++ sSp ++ outR

-- ===== the script loop =====

/-- `Line = Line.substr(0, find_first_of("#")); internal::trim(Line);`. -/
def cleanLine (l : List Char) : List Char := trimC (cropComment l)

/-- `Line.empty() || Line.compare(0, 4, "bart") != 0` on the cleaned line. -/
def skipLine (l : List Char) : Bool :=
  let c := cleanLine l
  c.isEmpty || !(c.take 4 == sBart)

/-- Result of the `while (getline(inputFile, Line))` loop of `process`:
emitted events, the substituted lines successfully executed (in order), the
final value of `Commands_Line`, and whether the loop ran to completion. -/
structure LoopOut where
  events : List Event
  executed : List (List Char)
  cmdsLine : List Char
  ok : Bool
deriving DecidableEq

/-- The script loop of `BartGadget::process`: skip empty / comment /
non-`bart` lines, substitute parameters, run `call_BART`; on failure return
`GADGET_FAIL` at once; on success record `Commands_Line = Line`. -/
def scriptLoop (dp : DefaultParams) (engine : List (List Char) → Int) :
    List (List Char) → List Char → LoopOut
  | [], cl => ⟨[], [], cl, true⟩
  | l :: ls, cl =>
    if skipLine l then scriptLoop dp engine ls cl
    else
      let l2 := (replace_default_parameters dp (cleanLine l)).1
      if call_BART engine l2 then
        let r := scriptLoop dp engine ls l2
        ⟨Event.engineInvoke (argvOf l2) :: r.events, l2 :: r.executed,
          r.cmdsLine, r.ok⟩
      else ⟨[Event.engineInvoke (argvOf l2)], [], cl, false⟩

-- ===== the tail of process() after the script loop =====

/-- Everything of `BartGadget::process` after the script loop: compute
`outputFile` via `internal::get_output_filename(Commands_Line)` (undefined
when the command line has no token), load its header, run `cmd3`, load the
reshaped result (null pointer fails), then either remove the directory
early (`!isBartFileBeingStored`) or dismiss the scope guard, and finally
size the output array (`assert(header[4] > 0)` modelled as `undef`). -/
def postLoop (storeFiles ubActive : Bool) (engine : List (List Char) → Int)
    (load : List Char → Option (List Int)) (cl : List Char) :
    List Event × PResult :=
  match get_output_filename cl with
  | none => ([], PResult.undef)
  | some outFile =>
    let outR := outFile ++ sReshapeSuffix
    let header := match load outFile with
      | some h => h
      | none => List.replicate 16 (0 : Int)
    let c3 := cmd3Str header outFile outR
    if call_BART engine c3 then
      match load outR with
      | none =>
        ([Event.load outFile, Event.engineInvoke (argvOf c3),
          Event.load outR] ++ guardExit ubActive, PResult.fail)
      | some _ =>
        let cleanupEvs := if storeFiles then [] else [Event.dirRemoved]
        let active2 := if storeFiles then false else ubActive
        if cppIdx header 4 ≤ 0 then
          ([Event.load outFile, Event.engineInvoke (argvOf c3),
            Event.load outR] ++ cleanupEvs, PResult.undef)
        else
          ([Event.load outFile, Event.engineInvoke (argvOf c3),
            Event.load outR] ++ cleanupEvs ++ guardExit active2, PResult.ok)
    else
      ([Event.load outFile, Event.engineInvoke (argvOf c3)] ++
        guardExit ubActive, PResult.fail)

/-- The early checks of `process` before the `ScopeGuard` is constructed:
script existence, permission change, non-empty working-directory property,
directory creation.  Each failure returns `GADGET_FAIL` with no events. -/
def preGuardOk (cfg : Config) : Bool :=
  cfg.scriptExists && cfg.chmodOk && !cfg.workDirEmpty && cfg.mkdirOk

/-- `BartGadget::process` as a whole: pre-guard checks, optional tmpfs
mount, registration loop, `cmd1` (only when `DIMS_ref != DIMS`), `cmd2`,
the script loop, and the post-loop tail.  Every return after the guard's
construction appends the guard destructor's events. -/
def process (cfg : Config) (dp : DefaultParams)
    (engine : List (List Char) → Int)
    (load : List Char → Option (List Int))
    (bits : List ReconBit) (lines : List (List Char)) :
    List Event × PResult :=
  if preGuardOk cfg then
    let mountNeeded := cfg.cacheToVM && !cfg.storeFiles
    let mountEvs := if mountNeeded then [Event.mount] else []
    if mountNeeded && !cfg.mountOk then
      (mountEvs ++ guardExit cfg.ubActive, PResult.fail)
    else
      let reg := registerStage bits [] []
      let pre := mountEvs ++ reg.1
      let dref := reg.2.1
      let d := reg.2.2
      let step1Evs :=
        if dref ≠ d then [Event.engineInvoke (argvOf (cmd1Str d))] else []
      let step1Ok :=
        if dref ≠ d then call_BART engine (cmd1Str d) else true
      if step1Ok = false then
        (pre ++ step1Evs ++ guardExit cfg.ubActive, PResult.fail)
      else
        let a2 := argvOf (cmd2Str d)
        if call_BART engine (cmd2Str d) then
          let r := scriptLoop dp engine lines []
          if r.ok then
            let p := postLoop cfg.storeFiles cfg.ubActive engine load r.cmdsLine
            (pre ++ step1Evs ++ [Event.engineInvoke a2] ++ r.events ++ p.1, p.2)
          else
            (pre ++ step1Evs ++ [Event.engineInvoke a2] ++ r.events ++
              guardExit cfg.ubActive, PResult.fail)
        else
          (pre ++ step1Evs ++ [Event.engineInvoke a2] ++
            guardExit cfg.ubActive, PResult.fail)
  else ([], PResult.fail)

-- ===== the final dimension recovery (lines 1008..1017 of the source) =====

/-- C++ `long` division (truncation toward zero). -/
def cppDiv (a b : Int) : Int :=
  let q : Nat := a.natAbs / b.natAbs
  if (0 ≤ a ∧ 0 ≤ b) ∨ (a < 0 ∧ b < 0) then (q : Int) else -(q : Int)

/-- `data_dims_Final`: copies `DIMS_OUT[0..3]`, `DIMS_OUT[5..6]` and sets
`data_dims_Final[4] = DIMS_OUT[4] / header[4]` after
`assert(header[4] > 0)`; the failed assertion is modelled as `none`.
No other failure path exists in the source. -/
def recoverDims (dimsOut : List Int) (maps : Int) : Option (List Int) :=
  if 0 < maps then
    some [cppIdx dimsOut 0, cppIdx dimsOut 1, cppIdx dimsOut 2,
      cppIdx dimsOut 3, cppDiv (cppIdx dimsOut 4) maps,
      cppIdx dimsOut 5, cppIdx dimsOut 6]
  else none

/-- The inner chunk loop `for (uint16_t n = 0; n < data_dims[4];
n += header[4])`: number of chunks taken per `(loc, s)` pair. -/
def chunkStepsAux : Nat → Nat → Nat → Nat → Nat
  | 0, _, _, _ => 0
  | fuel + 1, n, bound, step =>
    if n < bound then 1 + chunkStepsAux fuel (n + step) bound step else 0

def chunkSteps (bound step : Nat) : Nat := chunkStepsAux (bound + 1) 0 bound step

-- ===== concrete instances used by the claim theorems and witnesses =====

/-- A parameter set with all values 1. -/
def dp0 : DefaultParams := ⟨1, 1, 1, 1, 1, 1, 1, 1, 1, 1⟩

/-- A parameter set with `FOV_x = 300` and `FOV_y = 200`. -/
def dp3 : DefaultParams := ⟨1, 1, 1, 300, 200, 1, 1, 1, 1, 1⟩

/-- All pre-guard checks succeed, no tmpfs caching, no file retention, and
the uninitialized `is_active_` happens to read `true`. -/
def cfg0 : Config := ⟨true, true, false, true, false, false, true, true⟩

/-- Same as `cfg0` but the uninitialized `is_active_` happens to read
`false`. -/
def cfgU : Config := ⟨true, true, false, true, false, false, true, false⟩

/-- A recon bit whose reference and data arrays have identical size 1 on
every axis. -/
def bit1 : ReconBit := ⟨fun _ => 1, fun _ => 1⟩

def bits3 : List ReconBit := [bit1, bit1, bit1]

/-- Engine oracle: every command exits with status 0. -/
def engineZero : List (List Char) → Int := fun _ => 0

/-- Engine oracle: every command exits with status 1. -/
def engineFail : List (List Char) → Int := fun _ => 1

/-- Engine oracle: the `bart scale` bookkeeping command succeeds, every
other command fails. -/
def engineC4 : List (List Char) → Int :=
  fun a => if a = argvOf sCmd2scale then 0 else 1

/-- Registry-lookup oracle: every name is found, with all 16 dimensions 1. -/
def load0 : List Char → Option (List Int) := fun _ => some (List.replicate 16 1)

def lineU : List Char := "bart foo $unknown_token out".data
def lineA : List Char := "bart pics meas_gadgetron out1".data
def lineB : List Char := "bart rss 8 out1 out2".data
def lineC3 : List Char := "bart foo $FOV_x $FOV_y".data
def lineC3Out : List Char := "bart foo 300 $FOV_y".data
def sOut2 : List Char := "out2".data
def c10lines : List (List Char) :=
  ["# setup".data, "echo hi".data, "   ".data]

/-- `DIMS_OUT` with a composite time axis of length 5 (not divisible by a
maps count of 2). -/
def dims5 : List Int := [128, 128, 1, 8, 5, 1, 1] ++ List.replicate 9 1

def repTok : Nat → List Char
  | 0 => []
  | n + 1 => ' ' :: 'a' :: repTok n

/-- A command line of 256 whitespace-separated tokens. -/
def line256 : List Char := sBart ++ repTok 255

-- ===== claim theorems =====

/-- Claim C1 (code bug evidence): `ScopeGuard::is_active_` is never
initialized, so on an early failure return (here: the `cmd2` bookkeeping
engine call fails, retention not requested) the destructor can read `false`
and skip `cleanup`: the registry flush (`deallocate_all_mem_cfl`) runs but
the workspace directory is never removed, contradicting the claimed
guarantee for every exit path. -/
theorem c1_uninitialized_guard_skips_cleanup :
    process cfgU dp0 engineFail load0 [bit1] [] =
      ([Event.register sMG 7 Ownership.nonManaged,
        Event.engineInvoke (argvOf sCmd2scale), Event.deallocAll],
        PResult.fail) ∧
    Event.dirRemoved ∉ (process cfgU dp0 engineFail load0 [bit1] []).1 := by
  decide

/-- Claim C2 (counterexample): a script line containing `$unknown_token`
is reported (`GERROR` branch taken, flag `true`) but substitution does not
fail: the token is left in place, the orchestrator does not abort, and the
engine is invoked for that very line; the whole invocation even completes
with `GADGET_OK`. -/
theorem c2_unknown_param_still_invoked :
    (replace_default_parameters dp0 (cleanLine lineU)).2 = true ∧
    Event.engineInvoke (argvOf (replace_default_parameters dp0
        (cleanLine lineU)).1) ∈
      (process cfg0 dp0 engineZero load0 [bit1] [lineU]).1 ∧
    (process cfg0 dp0 engineZero load0 [bit1] [lineU]).2 = PResult.ok := by
  decide

/-- Claim C3 (code bug evidence): after replacing `$FOV_x` (6 characters)
by `300` (3 characters) the scan resumes at the position computed in the
string before the replacement, so the following known token `$FOV_y` is
skipped entirely: it is neither substituted nor reported, although
`FOV_y` is a known parameter. -/
theorem c3_stale_scan_index :
    replace_default_parameters dp3 lineC3 = (lineC3Out, false) ∧
    paramValue dp3 sFOVY = some 200 := by
  decide

/-- Claim C4 (code bug evidence): with a two-line script whose first engine
invocation fails, no subsequent line is executed (fail-fast holds: the only
engine invocations are the `cmd2` bookkeeping call and the first script
line), but because `ScopeGuard::is_active_` is uninitialized the workspace
directory is not removed when the flag reads `false` — only the registry
flush runs. -/
theorem c4_fail_fast_but_no_cleanup :
    process cfgU dp0 engineC4 load0 [bit1] [lineA, lineB] =
      ([Event.register sMG 7 Ownership.nonManaged,
        Event.engineInvoke (argvOf sCmd2scale),
        Event.engineInvoke (argvOf lineA), Event.deallocAll],
        PResult.fail) ∧
    Event.engineInvoke (argvOf lineB) ∉
      (process cfgU dp0 engineC4 load0 [bit1] [lineA, lineB]).1 ∧
    Event.dirRemoved ∉
      (process cfgU dp0 engineC4 load0 [bit1] [lineA, lineB]).1 := by
  decide

/-- Claim C5 (counterexample): with a composite axis length of 5 and a maps
count of 2 (which does not divide 5), the recovery does not fail at all:
it silently truncates the time axis to `5 / 2 = 2`. -/
theorem c5_non_divisible_no_failure :
    cppIdx dims5 4 % 2 ≠ 0 ∧
    recoverDims dims5 2 = some [128, 128, 1, 8, 2, 1, 1] := by
  decide

/-- Claim C7 (counterexample): a line of 256 whitespace-separated tokens is
tokenized to only 255 argv entries — the excess token is silently dropped
(`argc < MAX_ARGS - 1`) and `call_BART` still invokes the engine; no
`TooManyArguments` failure exists. -/
theorem c7_truncation_not_fatal :
    (tokenizeWS line256).length = 256 ∧
    (argvOf line256).length = 255 ∧
    call_BART engineZero line256 = true := by
  decide

/-- Claim C8 (code bug evidence): `DIMS` is never cleared between recon-bit
iterations, so with three recon bits the three registrations pass dimension
counts 7, 14 and 21 to `register_mem_cfl_non_managed` — the last exceeding
the maximum axis count of 16 that bart_api.h documents (`should be < 16`). -/
theorem c8_dims_accumulate_past_16 :
    (registerStage bits3 [] []).1 =
      [Event.register sMG 7 Ownership.nonManaged,
       Event.register sMG 14 Ownership.nonManaged,
       Event.register sMG 21 Ownership.nonManaged] ∧
    Event.register sMG 21 Ownership.nonManaged ∈
      (process cfg0 dp0 engineZero load0 bits3 [lineA]).1 ∧
    16 < 21 := by
  decide

-- ===== helper lemmas about the script loop and the traces =====

/-- Auxiliary: prepending an element shifts the default of the last-element
lookup. -/
theorem getLast?_cons_getD {α : Type} : ∀ (l : List α) (a c : α),
    ((a :: l).getLast?).getD c = (l.getLast?).getD a := by
  intro l
  induction l with
  | nil => intro a c; rfl
  | cons b bs ih =>
    intro a c
    rw [List.getLast?_cons_cons, ih b c, ih b a]

/-- On a successful run, the final `Commands_Line` is the last successfully
executed (substituted) line, or the initial value when no line was
executed. -/
theorem scriptLoop_cmdsLine (dp : DefaultParams)
    (engine : List (List Char) → Int) :
    ∀ (lines : List (List Char)) (cl : List Char),
      (scriptLoop dp engine lines cl).ok = true →
      (scriptLoop dp engine lines cl).cmdsLine =
        ((scriptLoop dp engine lines cl).executed.getLast?).getD cl := by
  intro lines
  induction lines with
  | nil => intro cl _; simp [scriptLoop]
  | cons l ls ih =>
    intro cl h
    by_cases hs : skipLine l
    · simp only [scriptLoop, hs, if_true] at h ⊢
      exact ih cl h
    · by_cases hc :
        call_BART engine (replace_default_parameters dp (cleanLine l)).1
      · simp only [scriptLoop] at h ⊢
        rw [if_neg hs] at h ⊢
        rw [if_pos hc] at h ⊢
        simp only [] at h ⊢
        rw [getLast?_cons_getD]
        exact ih _ h
      · simp only [scriptLoop] at h
        rw [if_neg hs] at h
        rw [if_neg hc] at h
        simp at h

/-- Claim C6: on every run of the script loop in which at least one command
line executed successfully, the name `process` uses to locate the final
result buffer — `internal::get_output_filename(Commands_Line)` — is the
trailing whitespace-delimited token of the last successfully executed
line. -/
theorem c6_output_name (dp : DefaultParams) (engine : List (List Char) → Int)
    (lines : List (List Char)) (l : List Char)
    (hok : (scriptLoop dp engine lines []).ok = true)
    (hl : (scriptLoop dp engine lines []).executed.getLast? = some l) :
    get_output_filename (scriptLoop dp engine lines []).cmdsLine =
      (tokenizeWS l).getLast? := by
  have h := scriptLoop_cmdsLine dp engine lines [] hok
  rw [hl] at h
  rw [h]
  rfl

/-- Witness for C6: a concrete two-line script, every engine call
succeeding; the final buffer name is the trailing token `out2` of the last
line. -/
theorem c6_output_name_witness :
    get_output_filename (scriptLoop dp0 engineZero [lineA, lineB] []).cmdsLine
        = (tokenizeWS lineB).getLast? ∧
    (tokenizeWS lineB).getLast? = some sOut2 :=
  ⟨c6_output_name dp0 engineZero [lineA, lineB] lineB (by decide) (by decide),
    by decide⟩

/-- Claim C2 (amended form): a command line whose substitution reported an
unknown parameter is nevertheless still handed to the engine — the report
is a log message, not an abort. -/
theorem c2_reported_but_not_fatal (dp : DefaultParams)
    (engine : List (List Char) → Int) (l : List Char)
    (rest : List (List Char)) (cl : List Char)
    (hcmd : skipLine l = false)
    (_hflag : (replace_default_parameters dp (cleanLine l)).2 = true) :
    Event.engineInvoke (argvOf (replace_default_parameters dp (cleanLine l)).1)
      ∈ (scriptLoop dp engine (l :: rest) cl).events := by
  simp only [scriptLoop]
  rw [if_neg (by simp [hcmd])]
  by_cases hc : call_BART engine (replace_default_parameters dp (cleanLine l)).1
  · rw [if_pos hc]
    exact List.mem_cons_self _ _
  · rw [if_neg hc]
    exact List.mem_singleton.mpr rfl

/-- Witness for the amended C2: the unknown-token line is reported and still
invoked. -/
theorem c2_reported_but_not_fatal_witness :
    Event.engineInvoke (argvOf (replace_default_parameters dp0
        (cleanLine lineU)).1)
      ∈ (scriptLoop dp0 engineZero [lineU] []).events :=
  c2_reported_but_not_fatal dp0 engineZero lineU [] [] (by decide) (by decide)

/-- Claim C7 (amended form): tokenization keeps at most 255 tokens, and the
kept tokens are an initial segment of the full whitespace split — excess
tokens are silently discarded, never an error. -/
theorem c7_at_most_255_tokens (s : List Char) :
    (argvOf s).length ≤ 255 ∧ argvOf s <+: tokenizeWS s := by
  constructor
  · rw [argvOf, List.length_take]
    exact min_le_left _ _
  · exact List.take_prefix _ _

/-- Claim C5 (amended form): for every positive maps count the recovery
never fails; the recovered time axis is the truncating integer quotient of
the composite axis length by the maps count (characterized by the two
division inequalities), whether or not the division is even. -/
theorem c5_truncating_division (dimsOut : List Int) (m : Int)
    (hm : 0 < m) (hd : 0 ≤ cppIdx dimsOut 4) :
    ∃ res, recoverDims dimsOut m = some res ∧
      cppIdx res 4 * m ≤ cppIdx dimsOut 4 ∧
      cppIdx dimsOut 4 < cppIdx res 4 * m + m := by
  refine ⟨_, by rw [recoverDims, if_pos hm], ?_, ?_⟩ <;>
  · show _
    have hA : ((cppIdx dimsOut 4).natAbs : Int) = cppIdx dimsOut 4 :=
      Int.natAbs_of_nonneg hd
    have hM : (m.natAbs : Int) = m := Int.natAbs_of_nonneg hm.le
    have hMpos : 0 < m.natAbs := Int.natAbs_pos.mpr (ne_of_gt hm)
    have hdm := Nat.div_add_mod (cppIdx dimsOut 4).natAbs m.natAbs
    have hlt := Nat.mod_lt (cppIdx dimsOut 4).natAbs hMpos
    have hcpp : cppIdx [cppIdx dimsOut 0, cppIdx dimsOut 1, cppIdx dimsOut 2,
        cppIdx dimsOut 3, cppDiv (cppIdx dimsOut 4) m,
        cppIdx dimsOut 5, cppIdx dimsOut 6] 4 =
        ((cppIdx dimsOut 4).natAbs / m.natAbs : Nat) := by
      show cppDiv (cppIdx dimsOut 4) m = _
      rw [cppDiv]
      simp [hd, hm.le]
    have hdm2 : (m.natAbs : Int) *
        (((cppIdx dimsOut 4).natAbs / m.natAbs : Nat) : Int) +
        (((cppIdx dimsOut 4).natAbs % m.natAbs : Nat) : Int) =
        (((cppIdx dimsOut 4).natAbs : Nat) : Int) := by
      exact_mod_cast hdm
    rw [hA, hM] at hdm2
    have hlt2 : (((cppIdx dimsOut 4).natAbs % m.natAbs : Nat) : Int) < m := by
      rw [← hM]
      exact_mod_cast hlt
    have hy : (0 : Int) ≤ (((cppIdx dimsOut 4).natAbs % m.natAbs : Nat) : Int) :=
      Int.ofNat_nonneg _
    rw [hcpp]
    linarith [hdm2, hlt2, hy]

/-- Witness for the amended C5: composite axis 5, maps count 2 — no
failure, axis truncated to the quotient. -/
theorem c5_truncating_division_witness :
    ∃ res, recoverDims dims5 2 = some res ∧
      cppIdx res 4 * 2 ≤ cppIdx dims5 4 ∧
      cppIdx dims5 4 < cppIdx res 4 * 2 + 2 :=
  c5_truncating_division dims5 2 (by decide) (by decide)

/-- A script whose every line is skipped leaves the loop state untouched. -/
theorem scriptLoop_all_skip (dp : DefaultParams)
    (engine : List (List Char) → Int) :
    ∀ (lines : List (List Char)) (cl : List Char),
      lines.all skipLine = true →
      scriptLoop dp engine lines cl = ⟨[], [], cl, true⟩ := by
  intro lines
  induction lines with
  | nil => intro cl _; rfl
  | cons l ls ih =>
    intro cl h
    rw [List.all_cons, Bool.and_eq_true] at h
    simp only [scriptLoop]
    rw [if_pos h.1]
    exact ih cl h.2

/-- Claim C10: `internal::get_output_filename` takes `back()` of the token
vector without an emptiness guard, so it is undefined on a tokenless
string; a script with no non-empty, non-comment line whose first four
characters are `bart` leaves `Commands_Line` empty, and `process` then
applies the extraction to the empty command string — undefined behaviour
(modelled as `PResult.undef`). -/
theorem c10_no_command_line_undefined (dp : DefaultParams)
    (load : List Char → Option (List Int)) (lines : List (List Char))
    (h : lines.all skipLine = true) :
    (process cfg0 dp engineZero load [bit1] lines).2 = PResult.undef ∧
    get_output_filename [] = none := by
  have hl := scriptLoop_all_skip dp engineZero lines [] h
  constructor
  · simp only [process]
    rw [hl]
    simp [cfg0, preGuardOk, registerStage, bit1, emplace7, guardExit,
      postLoop, get_output_filename, tokenizeWS, tokAux, cmd2Str, cppIdx,
      call_BART, argvOf, engineZero]
  · rfl

/-- Witness for C10: a concrete script consisting of a comment line, a
non-`bart` line and a blank line. -/
theorem c10_no_command_line_undefined_witness :
    (process cfg0 dp0 engineZero load0 [bit1] c10lines).2 = PResult.undef ∧
    get_output_filename [] = none :=
  c10_no_command_line_undefined dp0 load0 c10lines (by decide)

/-- True unless the event is a registration through one of the two
ownership-taking variants. -/
def notOwnedReg : Event → Bool
  | Event.register _ _ own => own == Ownership.nonManaged
  | _ => true

theorem registerStage_notOwned : ∀ (bits : List ReconBit) (dref d : List Int),
    ((registerStage bits dref d).1.all notOwnedReg) = true := by
  intro bits
  induction bits with
  | nil => intro dref d; rfl
  | cons b bs ih =>
    intro dref d
    simp only [registerStage, List.all_append]
    rw [ih]
    split <;> rfl

theorem scriptLoop_notOwned (dp : DefaultParams)
    (engine : List (List Char) → Int) :
    ∀ (lines : List (List Char)) (cl : List Char),
      ((scriptLoop dp engine lines cl).events.all notOwnedReg) = true := by
  intro lines
  induction lines with
  | nil => intro cl; rfl
  | cons l ls ih =>
    intro cl
    simp only [scriptLoop]
    by_cases hs : skipLine l
    · rw [if_pos hs]
      exact ih cl
    · rw [if_neg hs]
      by_cases hc :
          call_BART engine (replace_default_parameters dp (cleanLine l)).1
      · rw [if_pos hc]
        simp only [List.all_cons]
        rw [ih]
        rfl
      · rw [if_neg hc]
        rfl

theorem guardExit_notOwned (b : Bool) :
    (guardExit b).all notOwnedReg = true := by
  cases b <;> rfl

theorem postLoop_notOwned (sf ub : Bool) (engine : List (List Char) → Int)
    (load : List Char → Option (List Int)) (cl : List Char) :
    ((postLoop sf ub engine load cl).1.all notOwnedReg) = true := by
  simp only [postLoop]
  repeat' split
  all_goals simp [List.all_append, guardExit_notOwned, notOwnedReg]

/-- Claim C9: on every invocation, whatever the configuration, parameters,
engine and registry behaviour, incoming data and script, every registration
event in the trace of `process` uses the non-owning
`register_mem_cfl_non_managed` variant — neither owned variant is ever
invoked, so the registry's bulk release never frees pipeline memory. -/
theorem c9_only_non_managed_registration (cfg : Config) (dp : DefaultParams)
    (engine : List (List Char) → Int) (load : List Char → Option (List Int))
    (bits : List ReconBit) (lines : List (List Char)) :
    ((process cfg dp engine load bits lines).1.all notOwnedReg) = true := by
  simp only [process]
  repeat' split
  all_goals simp [List.all_append, registerStage_notOwned, scriptLoop_notOwned,
    guardExit_notOwned, postLoop_notOwned, notOwnedReg]
